import Mathlib

/-!
Verification of the RFIDuino driver layer (StrongLink SL018 = "Variant A",
SonMicro SM130 = "Variant B") against its natural-language specification.

The embedding is shallow: bytes are `Nat` (reduced mod 256 exactly where the
C code's 8-bit arithmetic wraps), the fixed `data[]` packet buffer becomes a
`List Nat`, and the mutable per-instance session fields become an explicit
state record threaded through the step functions.  Each definition is
translated directly from `SL018.cpp` / `SM130.cpp`; comments cite the
source lines.  Bytes of the buffer beyond those actually delivered by the
transport are modelled as 0 via `List.getD` defaults.
-/

/-- ASCII codes of a string literal, used to state facts about the C
`char` buffers (`tagString`, `versionString`) readably. -/
def asciiCodes (s : String) : List Nat :=
  s.data.map Char.toNat

/-- Shared helper `toHex` (SL018.cpp:451-455, SM130.cpp:485-489):
`b = b & 0x0f; return b < 10 ? b + '0' : b + 'A' - 10;`. -/
def toHex (b : Nat) : Nat :=
  if b % 16 < 10 then b % 16 + 48 else b % 16 + 65 - 10

/-- Shared helper `arrayToHex` (SL018.cpp:436-444, SM130.cpp:470-478):
writes two hex characters per input byte (`toHex(array[i] >> 4)` then
`toHex(array[i])`) and finally the NUL terminator `*s = 0`.  The result is
the full character sequence written, terminator included. -/
def arrayToHex (a : List Nat) : List Nat :=
  (a.map (fun b => [toHex (b / 16), toHex b])).flatten ++ [0]

/-- Transport gate (SL018.cpp:333-335, SL018.cpp:369-371, SM130.cpp:356-358,
SM130.cpp:403-405): `while(t > millis()); t = millis() + 20;` guards every
bus write (`transmitData`) and every bus read (`receiveData`).  Given the
stored deadline and the current time of a monotonic millisecond clock, it
returns the time at which the busy-wait exits (the transaction start) and
the new stored deadline. -/
def transactGate (deadline now : Nat) : Nat × Nat :=
  (max deadline now, max deadline now + 20)

namespace SL018

/-- `#define SIZE_PACKET 19` (SL018.h:17): size of the `data[]` buffer and
the maximum total frame size for Variant A (no checksum byte). -/
def SIZE_PACKET : Nat := 19

def CMD_IDLE : Nat := 0x00
def CMD_SELECT : Nat := 0x01
def CMD_LOGIN : Nat := 0x02
def CMD_READ16 : Nat := 0x03
def CMD_WRITE16 : Nat := 0x04
def CMD_READ_VALUE : Nat := 0x05
def CMD_WRITE_VALUE : Nat := 0x06
def CMD_WRITE_KEY : Nat := 0x07
def CMD_INC_VALUE : Nat := 0x08
def CMD_DEC_VALUE : Nat := 0x09
def CMD_COPY_VALUE : Nat := 0x0A
def CMD_READ4 : Nat := 0x10
def CMD_WRITE4 : Nat := 0x11
def CMD_SEEK : Nat := 0x20
def CMD_SET_LED : Nat := 0x40
def CMD_SLEEP : Nat := 0x50
def CMD_RESET : Nat := 0xFF

def OK : Nat := 0x00
def NO_TAG : Nat := 0x01

/-- Expected maximum response length per last-issued command: the `switch`
at SL018.cpp:88-119. -/
def expectedLen (c : Nat) : Nat :=
  if c = CMD_IDLE ∨ c = CMD_RESET then 0
  else if c = CMD_LOGIN ∨ c = CMD_SET_LED ∨ c = CMD_SLEEP then 3
  else if c = CMD_READ4 ∨ c = CMD_WRITE4 ∨ c = CMD_READ_VALUE ∨ c = CMD_WRITE_VALUE
      ∨ c = CMD_DEC_VALUE ∨ c = CMD_INC_VALUE ∨ c = CMD_COPY_VALUE then 7
  else if c = CMD_WRITE_KEY then 9
  else if c = CMD_SEEK ∨ c = CMD_SELECT then 11
  else SIZE_PACKET

/-- Session state of one SL018 instance: the private fields of the class
(SL018.h:71-79) that the response classifier reads and writes.  `tagString`
is the value of the C character buffer up to and including its NUL
terminator; clearing (`*tagString = 0`) makes it `[0]`. -/
structure State where
  cmd : Nat
  tagType : Nat
  tagLength : Nat
  tagNumber : List Nat
  tagString : List Nat
  errorCode : Nat
deriving Repr, DecidableEq

/-- A fresh session state with a given last-issued command. -/
def mkState (c : Nat) : State :=
  { cmd := c, tagType := 0, tagLength := 0, tagNumber := [],
    tagString := [0], errorCode := 0 }

/-- `SL018::receiveData` return value (SL018.cpp:367-406): if the transport
has no bytes, 0; otherwise the first received byte `data[0]` (the packet
length).  Variant A performs no checksum step.  `r` is the byte sequence
the transport delivers into `data[]`. -/
def receiveResult (r : List Nat) : Nat :=
  if r.length = 0 then 0 else r.getD 0 0

/-- The frame `seekTag()` transmits: `seekTag() { selectTag(); cmd = CMD_SEEK; }`
(SL018.h:131) sends the one-byte SELECT command `[1, CMD_SELECT]`. -/
def seekTagFrame : List Nat := [1, CMD_SELECT]

/-- `SL018::available` (SL018.cpp:86-153) as a step function: given the
session state and the bytes `r` the transport would deliver, it returns
the new state, the list of frames transmitted as a side effect (the seek
continuation), and the boolean result.  `getCommand()` returns the `cmd`
field (SL018.h:95); `getPacketLength()` is `data[0]`. -/
def availableStep (s : State) (r : List Nat) : State × List (List Nat) × Bool :=
  let len := expectedLen s.cmd
  if len ≠ 0 ∧ 0 < receiveResult r then
    let L := r.getD 0 0
    let s1 : State :=
      { s with tagType := 0, tagLength := 0, tagString := [0], errorCode := r.getD 2 0 }
    if s.cmd = CMD_SEEK ∨ s.cmd = CMD_SELECT then
      if s1.errorCode = 0 ∧ 7 ≤ L then
        let tl := L - 3
        let tn := (List.range tl).map (fun i => r.getD (3 + i) 0)
        ({ s1 with tagLength := tl, tagType := r.getD L 0,
                   tagNumber := tn, tagString := arrayToHex tn }, [], true)
      else if s.cmd = CMD_SEEK then
        ({ s1 with cmd := CMD_SEEK }, [seekTagFrame], false)
      else (s1, [], true)
    else (s1, [], true)
  else (s, [], false)

/-- `haltTag() { cmd = CMD_IDLE; }` (SL018.h:137): no bus traffic, no other
field is touched. -/
def haltTag (s : State) : State :=
  { s with cmd := CMD_IDLE }

/-- Outbound frame of `SL018::authenticate(byte sector)` (SL018.cpp:195-203). -/
def authenticateFrame (sector : Nat) : List Nat :=
  9 :: CMD_LOGIN :: sector :: 0xAA :: List.replicate 6 0xFF

/-- Outbound frame of `SL018::authenticate(byte, byte, byte[6])`
(SL018.cpp:211-219); `key` is the 6-byte key. -/
def authenticateKeyFrame (sector keyType : Nat) (key : List Nat) : List Nat :=
  9 :: CMD_LOGIN :: sector :: keyType :: key

/-- Outbound frame of `SL018::readBlock` (SL018.cpp:225-231). -/
def readBlockFrame (block : Nat) : List Nat := [2, CMD_READ16, block]

/-- Outbound frame of `SL018::readPage` (SL018.cpp:237-243). -/
def readPageFrame (page : Nat) : List Nat := [2, CMD_READ4, page]

/-- Outbound frame of `SL018::writeBlock` (SL018.cpp:253-262): `data[0]=18`,
`memcpy(data+3, message, 16)` then `data[18] = 0` overwrites the 16th
message byte, so bytes 3..17 are the first 15 message bytes; `msg` is the
16-byte block content. -/
def writeBlockFrame (block : Nat) (msg : List Nat) : List Nat :=
  18 :: CMD_WRITE16 :: block :: (msg.take 15 ++ [0])

/-- Outbound frame of `SL018::writePage` (SL018.cpp:271-280): `data[0]=6`,
`memcpy(data+3, message, 4)` then `data[6] = 0`; `msg` is the 4-byte page
content. -/
def writePageFrame (page : Nat) (msg : List Nat) : List Nat :=
  6 :: CMD_WRITE4 :: page :: (msg.take 3 ++ [0])

/-- Outbound frame of `SL018::writeKey` (SL018.cpp:287-294). -/
def writeKeyFrame (sector : Nat) (key : List Nat) : List Nat :=
  8 :: CMD_WRITE_KEY :: sector :: key

/-- Outbound frame of `SL018::led` (SL018.cpp:300-306); `level` is the
boolean argument as a byte. -/
def ledFrame (level : Nat) : List Nat := [2, CMD_SET_LED, level]

/-- Outbound frame of `SL018::sendCommand` (SL018.cpp:312-317). -/
def sendCommandFrame (c : Nat) : List Nat := [1, c]

/-- Variant A transmits exactly `data[0] + 1` bytes, no checksum
(`for (int i = 0; i <= data[0]; i++) Wire.write(data[i]);`, SL018.cpp:343-350).
The modelled frames are exactly those bytes, so the transmitted byte count
is the frame length. -/
def transmitFrame (d : List Nat) : List Nat := d

end SL018

namespace SM130

/-- `#define SIZE_PAYLOAD 18` (SM130.h:13). -/
def SIZE_PAYLOAD : Nat := 18

/-- `#define SIZE_PACKET (SIZE_PAYLOAD + 2)` (SM130.h:14): total packet
size including length byte and checksum, also the `data[]` buffer size. -/
def SIZE_PACKET : Nat := SIZE_PAYLOAD + 2

def CMD_RESET : Nat := 0x80
def CMD_VERSION : Nat := 0x81
def CMD_SEEK_TAG : Nat := 0x82
def CMD_SELECT_TAG : Nat := 0x83
def CMD_AUTHENTICATE : Nat := 0x85
def CMD_READ16 : Nat := 0x86
def CMD_READ_VALUE : Nat := 0x87
def CMD_WRITE16 : Nat := 0x89
def CMD_WRITE_VALUE : Nat := 0x8a
def CMD_WRITE4 : Nat := 0x8b
def CMD_WRITE_KEY : Nat := 0x8c
def CMD_INC_VALUE : Nat := 0x8d
def CMD_DEC_VALUE : Nat := 0x8e
def CMD_ANTENNA_POWER : Nat := 0x90
def CMD_READ_PORT : Nat := 0x91
def CMD_WRITE_PORT : Nat := 0x92
def CMD_HALT_TAG : Nat := 0x93
def CMD_SET_BAUD : Nat := 0x94
def CMD_SLEEP : Nat := 0x96

/-- Expected maximum response length per last-issued command: the `switch`
at SM130.cpp:130-153.  The C `case CMD_WRITE4: case CMD_WRITE_VALUE:
case CMD_READ_VALUE: len = 8;` has no `break`, so control falls through
into the seek/select case and `len` ends up 11 for those three commands. -/
def expectedLen (c : Nat) : Nat :=
  if c = CMD_ANTENNA_POWER ∨ c = CMD_AUTHENTICATE ∨ c = CMD_DEC_VALUE ∨ c = CMD_INC_VALUE
      ∨ c = CMD_WRITE_KEY ∨ c = CMD_HALT_TAG ∨ c = CMD_SLEEP then 4
  else if c = CMD_WRITE4 ∨ c = CMD_WRITE_VALUE ∨ c = CMD_READ_VALUE then 11
  else if c = CMD_SEEK_TAG ∨ c = CMD_SELECT_TAG then 11
  else SIZE_PACKET

/-- Running byte checksum of a byte sequence: the C code accumulates
`sum += data[i]` in a `byte`, i.e. the sum modulo 256. -/
def checksum (d : List Nat) : Nat := d.sum % 256

/-- `SM130::transmitData` (SM130.cpp:354-394) sends the `len = data[0] + 1`
buffer bytes followed by their running byte sum as the checksum byte.
`d` is the list of those `data[0] + 1` buffer bytes. -/
def transmitFrame (d : List Nat) : List Nat := d ++ [checksum d]

/-- `SM130::receiveData` return value (SM130.cpp:401-444): 0 when nothing
was received or the length byte is out of range, the payload length
`data[0]` when `0 < data[0] <= SIZE_PAYLOAD` and the byte sum of
`data[0..data[0]]` equals `data[data[0]+1]`, and otherwise the C
`return -1` which, through the declared return type `byte`, is the value
255.  `r` is the byte sequence the transport delivers into `data[]`. -/
def receiveResult (r : List Nat) : Nat :=
  if r.length = 0 then 0
  else if 0 < r.getD 0 0 ∧ r.getD 0 0 ≤ SIZE_PAYLOAD then
    if checksum ((List.range (r.getD 0 0 + 1)).map (fun i => r.getD i 0))
        = r.getD (r.getD 0 0 + 1) 0
    then r.getD 0 0
    else 255
  else 0

/-- Session state of one SM130 instance: the private fields of the class
(SM130.h:30-39) that the response classifier reads and writes.
`versionString` and `tagString` are modelled as the C buffer contents up
to and including the NUL terminator. -/
structure State where
  cmd : Nat
  versionString : List Nat
  tagType : Nat
  tagLength : Nat
  tagNumber : List Nat
  tagString : List Nat
  errorCode : Nat
  antennaPower : Nat
deriving Repr, DecidableEq

/-- A fresh session state with a given last-issued command. -/
def mkState (c : Nat) : State :=
  { cmd := c, versionString := [0], tagType := 0, tagLength := 0,
    tagNumber := [], tagString := [0], errorCode := 0, antennaPower := 1 }

/-- `SM130::available` (SM130.cpp:121-212) as a step function: given the
session state, the DREADY-pin configuration (`usePin` is
`pinDREADY != 0xff`, `dready` the pin level) and the bytes `r` the
transport would deliver, it returns the new state, the list of frames
transmitted as a side effect (always empty: this variant never re-issues
a command from `available`), and the boolean result.  `getCommand()` here
is `data[1]` (SM130.h:84), the command echo of the response. -/
def availableStep (s : State) (usePin dready : Bool) (r : List Nat) :
    State × List (List Nat) × Bool :=
  if s.cmd = CMD_SEEK_TAG ∧ usePin ∧ ¬ dready then (s, [], false)
  else if 0 < receiveResult r then
    let L := r.getD 0 0
    let ec := if L < 3 then r.getD 2 0 else 0
    let s1 : State :=
      { s with tagType := 0, tagLength := 0, tagString := [0], errorCode := ec }
    let rc := r.getD 1 0
    if rc = CMD_RESET ∨ rc = CMD_VERSION then
      let n := min L 8 - 1
      ({ s1 with versionString := (List.range n).map (fun i => r.getD (2 + i) 0) ++ [0] },
       [], true)
    else if rc = CMD_SEEK_TAG ∨ rc = CMD_SELECT_TAG then
      if ec = 0 ∧ 6 ≤ L then
        let tl := L - 2
        let tn := (List.range tl).map (fun i => r.getD (3 + i) 0)
        ({ s1 with tagLength := tl, tagType := r.getD 2 0,
                   tagNumber := tn, tagString := arrayToHex tn }, [], true)
      else (s1, [], true)
    else if rc = CMD_ANTENNA_POWER then
      ({ s1 with errorCode := 0, antennaPower := r.getD 2 0 }, [], true)
    else if rc = CMD_SLEEP then (s1, [], false)
    else (s1, [], true)
  else (s, [], false)

/-- `haltTag() { sendCommand(CMD_HALT_TAG); }` (SM130.h:116) with
`sendCommand`/`transmitData` (SM130.cpp:342-394): records the command and
transmits the one-byte HALT_TAG frame with checksum. -/
def haltTagStep (s : State) : State × List (List Nat) :=
  ({ s with cmd := CMD_HALT_TAG }, [transmitFrame [1, CMD_HALT_TAG]])

/-- Outbound frame of `SM130::setAntennaPower` (SM130.cpp:253-260),
before the checksum byte. -/
def setAntennaPowerFrame (level : Nat) : List Nat := [2, CMD_ANTENNA_POWER, level]

/-- Outbound frame of `SM130::authenticate(byte block)` (SM130.cpp:266-273). -/
def authenticateFrame (block : Nat) : List Nat := [3, CMD_AUTHENTICATE, block, 0xFF]

/-- Outbound frame of `SM130::authenticate(byte, byte, byte[6])`
(SM130.cpp:281-289). -/
def authenticateKeyFrame (block keyType : Nat) (key : List Nat) : List Nat :=
  9 :: CMD_AUTHENTICATE :: block :: keyType :: key

/-- Outbound frame of `SM130::readBlock` (SM130.cpp:295-301). -/
def readBlockFrame (block : Nat) : List Nat := [2, CMD_READ16, block]

/-- `strncpy(dst, src, n)` on a source C string with contents `msg`:
copies at most `n` bytes and zero-fills the remainder when the source is
shorter. -/
def strncpyPad (msg : List Nat) (n : Nat) : List Nat :=
  msg.take n ++ List.replicate (n - msg.length) 0

/-- Outbound frame of `SM130::writeBlock` (SM130.cpp:311-319):
`data[0]=18`, `strncpy(data+3, message, 15)`, `data[18]=0`; `msg` is the
message C-string content (at most 15 bytes reach the frame). -/
def writeBlockFrame (block : Nat) (msg : List Nat) : List Nat :=
  18 :: CMD_WRITE16 :: block :: (strncpyPad msg 15 ++ [0])

/-- Outbound frame of `SM130::writeFourByteBlock` (SM130.cpp:328-336):
`data[0]=6`, `strncpy(data+3, message, 3)`, `data[6]=0`. -/
def writeFourByteBlockFrame (block : Nat) (msg : List Nat) : List Nat :=
  6 :: CMD_WRITE4 :: block :: (strncpyPad msg 3 ++ [0])

/-- Outbound frame of `SM130::sendCommand` (SM130.cpp:342-347). -/
def sendCommandFrame (c : Nat) : List Nat := [1, c]

end SM130

/-- Write indices of the Variant A receive loop (SL018.cpp:377-392):
`data[0] = Wire.read();` then `for (byte i = 1; i <= data[0]; i++)
data[i] = Wire.read();`, where `L` is the device-supplied length byte.
The indices of the first pass of the loop are listed (for `L = 255` the
byte-typed counter additionally wraps around and the loop restarts). -/
def SL018.receiveWriteIndices (L : Nat) : List Nat := 0 :: List.range' 1 L

/-- Write indices of the Variant B receive loop (SM130.cpp:408-421):
`byte n = Wire.available(); for (byte i = 0; i < n;) data[i++] = Wire.read();`. -/
def SM130.receiveWriteIndices (n : Nat) : List Nat := List.range n

/-! Concrete packets used by several claims. -/

/-- A Variant B seek response `[len=6, cmd=0x82, type=1, id AA BB CC DD]`
whose trailing checksum byte 0x98 is off by one (the correct running byte
sum of bytes 0..6 is 0x97 = 151). -/
def badChecksumFrame : List Nat := [6, 0x82, 1, 0xAA, 0xBB, 0xCC, 0xDD, 152]

/-- The same Variant B tag record with the correct checksum byte 151. -/
def tagRecordB : List Nat := [6, 0x82, 1, 0xAA, 0xBB, 0xCC, 0xDD, 151]

/-- A Variant B "seek in progress" response: `[len=2, cmd=0x82,
status='L'=76]` with its correct checksum byte (2+130+76) mod 256 = 208.
The device sends this while no tag has been found yet. -/
def seekInProgressFrame : List Nat := [2, 0x82, 76, 208]

/-- A Variant A tag record with a 4-byte id:
`[len=7, cmd echo, status=0, id AA BB CC DD, type=1]`. -/
def tagRecord7 : List Nat := [7, 1, 0, 0xAA, 0xBB, 0xCC, 0xDD, 1]

/-- A Variant A tag record with a 7-byte id:
`[len=10, cmd echo, status=0, 7 id bytes, type=1]`. -/
def tagRecord10 : List Nat := [10, 1, 0, 4, 0xA1, 0x22, 0x5C, 9, 8, 7, 1]

/-- The spec's end-to-end record read with `len = 8` on Variant B
(checksum byte (8+130+1+170+187+204+221) mod 256 = 153): structurally
valid, status success, but the length byte 8 does not describe a 4-byte
id record. -/
def tagRecordLen8B : List Nat := [8, 0x82, 1, 0xAA, 0xBB, 0xCC, 0xDD, 0, 0, 153]

/-- Claim C4's frame invariant for Variant A: byte 0 equals the parameter
count (the bytes after the length and command bytes) plus one, and the
transmitted frame (the buffer bytes themselves, this variant appends no
checksum) fits the maximum packet size 19. -/
def SL018.frameOk (f : List Nat) : Prop :=
  f.getD 0 0 = (f.drop 2).length + 1 ∧ (SL018.transmitFrame f).length ≤ SL018.SIZE_PACKET

/-- Claim C4's frame invariant for Variant B: byte 0 equals the parameter
count plus one, and the transmitted frame including the appended checksum
byte fits the maximum packet size 20. -/
def SM130.frameOk (f : List Nat) : Prop :=
  f.getD 0 0 = (f.drop 2).length + 1 ∧ (SM130.transmitFrame f).length ≤ SM130.SIZE_PACKET

/-- The session state reached after a successful select of the tag
AA BB CC DD, used to examine what halting clears. -/
def selectedState : SL018.State :=
  (SL018.availableStep (SL018.mkState SL018.CMD_SELECT) tagRecord7).1

/-- The hex characters `arrayToHex` writes before the NUL terminator. -/
def hexBody (a : List Nat) : List Nat :=
  (a.map (fun b => [toHex (b / 16), toHex b])).flatten

/-! Claim theorems. -/

/-- C1 (code bug): on a Variant B packet whose checksum byte mismatches,
`receiveData` executes `return -1`, but its declared return type `byte`
turns that into 255, and `available()` tests `receiveData(len) > 0`, which
255 passes.  Contrary to the claim (and to `receiveData`'s own
`@return ... -1 if bad checksum` contract), the corrupted packet is fully
classified: the error-code field is set to 0, the derived tag fields are
populated from the untrusted payload, and the caller is told a valid
response is available. -/
theorem C1_bad_checksum_still_processed :
    SM130.receiveResult badChecksumFrame = 255 ∧
    (SM130.availableStep (SM130.mkState SM130.CMD_SEEK_TAG) false false badChecksumFrame).2.2
      = true ∧
    (SM130.availableStep (SM130.mkState SM130.CMD_SEEK_TAG) false false badChecksumFrame).1.errorCode
      = 0 ∧
    (SM130.availableStep (SM130.mkState SM130.CMD_SEEK_TAG) false false badChecksumFrame).1.tagType
      = 1 ∧
    (SM130.availableStep (SM130.mkState SM130.CMD_SEEK_TAG) false false badChecksumFrame).1.tagString
      = asciiCodes "AABBCCDD" ++ [0] := by
  decide

/-- C2 counterexample: the claim's bracket "block/page/value read-write
commands request 7-8 bytes" fails on Variant B: the 16-byte block read
command requests the full packet size 20, and the 4-byte write command
requests 11 (the `len = 8` assignment at SM130.cpp:146 has no `break` and
falls through into the seek/select case). -/
theorem C2_claimed_bracket_fails :
    ¬ ((7 ≤ SM130.expectedLen SM130.CMD_READ16 ∧ SM130.expectedLen SM130.CMD_READ16 ≤ 8) ∧
       (7 ≤ SM130.expectedLen SM130.CMD_WRITE4 ∧ SM130.expectedLen SM130.CMD_WRITE4 ≤ 8)) := by
  decide

/-- C2 (amended): the actual per-command expected maximum response
lengths.  Variant A: idle/reset 0 (no read is attempted); login/LED/sleep
3; page and value read-write commands 7; key write 9; seek/select 11; all
others, including the 16-byte block read/write, the full packet size 19.
Variant B: antenna power, authenticate, value increment/decrement, key
write, halt and sleep 4; 4-byte write and value read/write 11 (the
intended 8 is dead code because of the missing `break`); seek/select 11;
all others, including version, reset and the 16-byte block read/write,
the full packet size 20. -/
theorem C2_response_length_tables :
    SL018.expectedLen SL018.CMD_IDLE = 0 ∧ SL018.expectedLen SL018.CMD_RESET = 0 ∧
    SL018.expectedLen SL018.CMD_LOGIN = 3 ∧ SL018.expectedLen SL018.CMD_SET_LED = 3 ∧
    SL018.expectedLen SL018.CMD_SLEEP = 3 ∧
    SL018.expectedLen SL018.CMD_READ4 = 7 ∧ SL018.expectedLen SL018.CMD_WRITE4 = 7 ∧
    SL018.expectedLen SL018.CMD_READ_VALUE = 7 ∧ SL018.expectedLen SL018.CMD_WRITE_VALUE = 7 ∧
    SL018.expectedLen SL018.CMD_DEC_VALUE = 7 ∧ SL018.expectedLen SL018.CMD_INC_VALUE = 7 ∧
    SL018.expectedLen SL018.CMD_COPY_VALUE = 7 ∧
    SL018.expectedLen SL018.CMD_WRITE_KEY = 9 ∧
    SL018.expectedLen SL018.CMD_SEEK = 11 ∧ SL018.expectedLen SL018.CMD_SELECT = 11 ∧
    SL018.expectedLen SL018.CMD_READ16 = SL018.SIZE_PACKET ∧
    SL018.expectedLen SL018.CMD_WRITE16 = SL018.SIZE_PACKET ∧
    SM130.expectedLen SM130.CMD_ANTENNA_POWER = 4 ∧
    SM130.expectedLen SM130.CMD_AUTHENTICATE = 4 ∧
    SM130.expectedLen SM130.CMD_DEC_VALUE = 4 ∧ SM130.expectedLen SM130.CMD_INC_VALUE = 4 ∧
    SM130.expectedLen SM130.CMD_WRITE_KEY = 4 ∧ SM130.expectedLen SM130.CMD_HALT_TAG = 4 ∧
    SM130.expectedLen SM130.CMD_SLEEP = 4 ∧
    SM130.expectedLen SM130.CMD_WRITE4 = 11 ∧ SM130.expectedLen SM130.CMD_WRITE_VALUE = 11 ∧
    SM130.expectedLen SM130.CMD_READ_VALUE = 11 ∧
    SM130.expectedLen SM130.CMD_SEEK_TAG = 11 ∧ SM130.expectedLen SM130.CMD_SELECT_TAG = 11 ∧
    SM130.expectedLen SM130.CMD_VERSION = SM130.SIZE_PACKET ∧
    SM130.expectedLen SM130.CMD_RESET = SM130.SIZE_PACKET ∧
    SM130.expectedLen SM130.CMD_READ16 = SM130.SIZE_PACKET ∧
    SM130.expectedLen SM130.CMD_WRITE16 = SM130.SIZE_PACKET := by
  decide

/-- C3 (amended to Variant A): when the SL018 availability check processes
a response carrying the NO_TAG status while the last-issued command is
seek, it transmits exactly one re-seek frame (`seekTag()` sends the
one-byte SELECT command), returns false to the caller, and stays in seek
mode. -/
theorem C3_seek_continuation (s : SL018.State) (r : List Nat)
    (hcmd : s.cmd = SL018.CMD_SEEK)
    (hdata : 0 < SL018.receiveResult r)
    (hstatus : r.getD 2 0 = SL018.NO_TAG) :
    (SL018.availableStep s r).2.1 = [SL018.seekTagFrame] ∧
    (SL018.availableStep s r).2.2 = false ∧
    (SL018.availableStep s r).1.cmd = SL018.CMD_SEEK := by
  unfold SL018.availableStep
  rw [hcmd, hstatus]
  simp [SL018.expectedLen, SL018.NO_TAG, SL018.CMD_SEEK, SL018.CMD_IDLE, SL018.CMD_RESET,
    SL018.CMD_LOGIN, SL018.CMD_SET_LED, SL018.CMD_SLEEP, SL018.CMD_READ4, SL018.CMD_WRITE4,
    SL018.CMD_READ_VALUE, SL018.CMD_WRITE_VALUE, SL018.CMD_DEC_VALUE, SL018.CMD_INC_VALUE,
    SL018.CMD_COPY_VALUE, SL018.CMD_WRITE_KEY, SL018.CMD_SEEK, SL018.CMD_SELECT, hdata]

/-- C3 witness: the amended theorem applied to a concrete NO_TAG response
`[2, 0x20, 1]` while seeking. -/
theorem C3_seek_continuation_witness :
    (SL018.availableStep (SL018.mkState SL018.CMD_SEEK) [2, 32, 1]).2.1
      = [SL018.seekTagFrame] ∧
    (SL018.availableStep (SL018.mkState SL018.CMD_SEEK) [2, 32, 1]).2.2 = false ∧
    (SL018.availableStep (SL018.mkState SL018.CMD_SEEK) [2, 32, 1]).1.cmd = SL018.CMD_SEEK :=
  C3_seek_continuation (SL018.mkState SL018.CMD_SEEK) [2, 32, 1] (by decide) (by decide)
    (by decide)

/-- C3 counterexample (Variant B): fed a structurally valid "seek in
progress / no tag yet" response (status 'L') while the active command is
seek, `SM130::available` issues no re-seek command at all and returns
true (surfacing error code 'L' to the caller), not the claimed
"exactly one re-seek and return false". -/
theorem C3_variantB_returns_true_without_reseek :
    (SM130.availableStep (SM130.mkState SM130.CMD_SEEK_TAG) false false seekInProgressFrame).2.2
      = true ∧
    (SM130.availableStep (SM130.mkState SM130.CMD_SEEK_TAG) false false seekInProgressFrame).2.1
      = [] ∧
    (SM130.availableStep (SM130.mkState SM130.CMD_SEEK_TAG) false false seekInProgressFrame).1.errorCode
      = 76 := by
  decide

/-- C10 (code bug): the Variant A receive loop bound is the raw
device-supplied length byte; for length byte 19 the loop writes index 19,
one past the end of the 19-byte `data[]` buffer (valid indices 0..18).
The Variant B loop, bounded by the transport's available-byte count
(at most the requested length, at most SIZE_PACKET = 20), stays in
bounds. -/
theorem C10_variantA_receive_overflow :
    19 ∈ SL018.receiveWriteIndices 19 ∧
    ¬ (19 < SL018.SIZE_PACKET) ∧
    (SM130.receiveWriteIndices SM130.SIZE_PACKET).all
      (fun j => decide (j < SM130.SIZE_PACKET)) = true := by
  decide

/-- C4: every encoder writes byte 0 = parameter count + 1 and byte 1 = the
command code, and the transmitted frame fits the maximum packet size
(19 bytes for Variant A, 20 for Variant B including the checksum byte).
The write encoders require their documented fixed-size message buffers
(16-byte block, 4-byte page) on Variant A; Variant B's `strncpy` encoders
need no length hypothesis because they truncate and zero-pad. -/
theorem C4_encoded_frames :
    (∀ sector, SL018.frameOk (SL018.authenticateFrame sector)) ∧
    (∀ sector keyType key, List.length key = 6 →
      SL018.frameOk (SL018.authenticateKeyFrame sector keyType key)) ∧
    (∀ block, SL018.frameOk (SL018.readBlockFrame block)) ∧
    (∀ page, SL018.frameOk (SL018.readPageFrame page)) ∧
    (∀ block msg, List.length msg = 16 → SL018.frameOk (SL018.writeBlockFrame block msg)) ∧
    (∀ page msg, List.length msg = 4 → SL018.frameOk (SL018.writePageFrame page msg)) ∧
    (∀ sector key, List.length key = 6 → SL018.frameOk (SL018.writeKeyFrame sector key)) ∧
    (∀ level, SL018.frameOk (SL018.ledFrame level)) ∧
    (∀ c, SL018.frameOk (SL018.sendCommandFrame c)) ∧
    (∀ level, SM130.frameOk (SM130.setAntennaPowerFrame level)) ∧
    (∀ block, SM130.frameOk (SM130.authenticateFrame block)) ∧
    (∀ block keyType key, List.length key = 6 →
      SM130.frameOk (SM130.authenticateKeyFrame block keyType key)) ∧
    (∀ block, SM130.frameOk (SM130.readBlockFrame block)) ∧
    (∀ block msg, SM130.frameOk (SM130.writeBlockFrame block msg)) ∧
    (∀ block msg, SM130.frameOk (SM130.writeFourByteBlockFrame block msg)) ∧
    (∀ c, SM130.frameOk (SM130.sendCommandFrame c)) := by
  refine ⟨?_, ?_, ?_, ?_, ?_, ?_, ?_, ?_, ?_, ?_, ?_, ?_, ?_, ?_, ?_, ?_⟩ <;>
    intros <;>
    simp_all [SL018.frameOk, SM130.frameOk, SL018.transmitFrame, SM130.transmitFrame,
      SL018.SIZE_PACKET, SM130.SIZE_PACKET, SM130.SIZE_PAYLOAD,
      SL018.authenticateFrame, SL018.authenticateKeyFrame, SL018.readBlockFrame,
      SL018.readPageFrame, SL018.writeBlockFrame, SL018.writePageFrame,
      SL018.writeKeyFrame, SL018.ledFrame, SL018.sendCommandFrame,
      SM130.setAntennaPowerFrame, SM130.authenticateFrame, SM130.authenticateKeyFrame,
      SM130.readBlockFrame, SM130.writeBlockFrame, SM130.writeFourByteBlockFrame,
      SM130.sendCommandFrame, SM130.strncpyPad, List.getD_cons_zero] <;>
    omega

/-- C4 witness: the hypothesis-bearing encoders applied to concrete
inputs of the documented sizes. -/
theorem C4_encoded_frames_witness :
    SL018.frameOk (SL018.authenticateKeyFrame 1 0xAA (List.replicate 6 0xFF)) ∧
    SL018.frameOk (SL018.writeBlockFrame 1 (List.replicate 16 65)) ∧
    SL018.frameOk (SL018.writePageFrame 2 (List.replicate 4 65)) ∧
    SL018.frameOk (SL018.writeKeyFrame 0 (List.replicate 6 0xFF)) ∧
    SM130.frameOk (SM130.authenticateKeyFrame 1 0xAA (List.replicate 6 0xFF)) :=
  ⟨C4_encoded_frames.2.1 1 0xAA (List.replicate 6 0xFF) (by decide),
   C4_encoded_frames.2.2.2.2.1 1 (List.replicate 16 65) (by decide),
   C4_encoded_frames.2.2.2.2.2.1 2 (List.replicate 4 65) (by decide),
   C4_encoded_frames.2.2.2.2.2.2.1 0 (List.replicate 6 0xFF) (by decide),
   C4_encoded_frames.2.2.2.2.2.2.2.2.2.2.2.1 1 0xAA (List.replicate 6 0xFF) (by decide)⟩

/-- C7 helper: `arrayToHex` writes two characters per input byte. -/
theorem hexBody_length (a : List Nat) : (hexBody a).length = 2 * a.length := by
  induction a with
  | nil => rfl
  | cons b l ih =>
    simp only [hexBody, List.map_cons, List.flatten_cons, List.length_append,
      List.length_cons, List.length_nil] at ih ⊢
    omega

/-- C7 helper: `toHex` returns an uppercase hexadecimal ASCII digit. -/
theorem toHex_is_hex_digit (b : Nat) :
    (48 ≤ toHex b ∧ toHex b ≤ 57) ∨ (65 ≤ toHex b ∧ toHex b ≤ 70) := by
  unfold toHex
  have h : b % 16 < 16 := Nat.mod_lt b (by omega)
  split <;> omega

/-- C7 helper: every character `arrayToHex` writes before the terminator
is an uppercase hexadecimal ASCII digit. -/
theorem hexBody_mem (a : List Nat) (c : Nat) (hc : c ∈ hexBody a) :
    (48 ≤ c ∧ c ≤ 57) ∨ (65 ≤ c ∧ c ≤ 70) := by
  simp only [hexBody, List.mem_flatten, List.mem_map] at hc
  obtain ⟨l, ⟨b, _, rfl⟩, hcl⟩ := hc
  rcases List.mem_cons.mp hcl with h | h
  · exact h ▸ toHex_is_hex_digit (b / 16)
  · rcases List.mem_cons.mp h with h2 | h2
    · exact h2 ▸ toHex_is_hex_digit b
    · cases h2

/-- C7: the tag-id hex-string derivation is a pure function of the raw id
bytes: `[0x04, 0xA1, 0x22, 0x5C]` yields exactly the characters of
"04A1225C"; a 7-byte id yields 14 hex characters; and for every input the
output consists of uppercase hexadecimal ASCII digits followed by the NUL
terminator. -/
theorem C7_arrayToHex_pure :
    arrayToHex [0x04, 0xA1, 0x22, 0x5C] = asciiCodes "04A1225C" ++ [0] ∧
    (∀ a : List Nat, a.length = 7 →
      arrayToHex a = hexBody a ++ [0] ∧ (hexBody a).length = 14) ∧
    (∀ a : List Nat, arrayToHex a = hexBody a ++ [0] ∧
      (hexBody a).length = 2 * a.length ∧
      ∀ c ∈ hexBody a, (48 ≤ c ∧ c ≤ 57) ∨ (65 ≤ c ∧ c ≤ 70)) := by
  refine ⟨by decide, fun a ha => ⟨rfl, by rw [hexBody_length, ha]⟩,
    fun a => ⟨rfl, hexBody_length a, fun c hc => hexBody_mem a c hc⟩⟩

/-- C7 witness: the 7-byte-id clause applied to a concrete id. -/
theorem C7_arrayToHex_pure_witness :
    arrayToHex [0, 1, 2, 3, 4, 5, 6] = hexBody [0, 1, 2, 3, 4, 5, 6] ++ [0] ∧
    (hexBody [0, 1, 2, 3, 4, 5, 6]).length = 14 :=
  C7_arrayToHex_pure.2.1 [0, 1, 2, 3, 4, 5, 6] (by decide)

/-- C8 (amended): halting is idempotent and returns the session to the
idle last-command, so that Variant A's availability check reads nothing
and reports false; but the stored tag id (string, length, type) is NOT
cleared by halting on either variant - it persists until the next
processed response overwrites it, and the engine itself stores no
authenticated flag for halt to clear. -/
theorem C8_halt_idempotent_idle (s : SL018.State) (t : SM130.State) :
    SL018.haltTag (SL018.haltTag s) = SL018.haltTag s ∧
    (SL018.haltTag s).cmd = SL018.CMD_IDLE ∧
    (∀ r, SL018.availableStep (SL018.haltTag s) r = (SL018.haltTag s, [], false)) ∧
    (SL018.haltTag s).tagType = s.tagType ∧
    (SL018.haltTag s).tagLength = s.tagLength ∧
    (SL018.haltTag s).tagString = s.tagString ∧
    (SM130.haltTagStep (SM130.haltTagStep t).1).1 = (SM130.haltTagStep t).1 ∧
    (SM130.haltTagStep t).1.cmd = SM130.CMD_HALT_TAG ∧
    (SM130.haltTagStep t).1.tagString = t.tagString := by
  refine ⟨rfl, rfl, fun r => ?_, rfl, rfl, rfl, rfl, rfl, rfl⟩
  simp [SL018.availableStep, SL018.haltTag, SL018.expectedLen, SL018.CMD_IDLE]

/-- C8 counterexample: from the state reached after selecting tag
AA BB CC DD, `haltTag()` moves the session to idle but leaves the stored
tag id fully intact, contradicting the claim that halting clears it. -/
theorem C8_halt_retains_tag :
    (SL018.haltTag selectedState).cmd = SL018.CMD_IDLE ∧
    (SL018.haltTag selectedState).tagString = asciiCodes "AABBCCDD" ++ [0] ∧
    (SL018.haltTag selectedState).tagString ≠ [0] ∧
    (SL018.haltTag selectedState).tagLength = 4 ∧
    (SL018.haltTag selectedState).tagType = 1 := by
  decide

/-- C9: the transport gate blocks until the stored deadline (20 ms past
the previous transaction start) has been reached, never waits more than
the fixed 20 ms interval, and re-arms the deadline to 20 ms after the new
transaction start; hence consecutive transaction starts are at least
20 ms apart.  `prev` is the previous transaction's start time, `now` the
(monotone, hence not earlier) time the caller arrives at the gate. -/
theorem C9_transport_gate (prev now : Nat) (h : prev ≤ now) :
    prev + 20 ≤ (transactGate (prev + 20) now).1 ∧
    (transactGate (prev + 20) now).1 - now ≤ 20 ∧
    (transactGate (prev + 20) now).2 = (transactGate (prev + 20) now).1 + 20 := by
  refine ⟨?_, ?_, rfl⟩
  · simp [transactGate]
  · simp only [transactGate]
    omega

/-- C9 witness: the gate applied at a concrete pair of times. -/
theorem C9_transport_gate_witness :
    0 + 20 ≤ (transactGate (0 + 20) 5).1 ∧
    (transactGate (0 + 20) 5).1 - 5 ≤ 20 ∧
    (transactGate (0 + 20) 5).2 = (transactGate (0 + 20) 5).1 + 20 :=
  C9_transport_gate 0 5 (by decide)

/-- C6 (amended): for every structurally valid tag-seek/select response
with success status and payload length at least the tag-record minimum,
both classifiers derive the tag-id byte count from the payload length
minus a fixed header size (3 for Variant A, whose record carries a status
byte and a trailing type byte; 2 for Variant B, whose type byte precedes
the id), copy exactly those id bytes, record the tag kind and report data
available - uniformly for 4- and 7-byte ids.  In particular the records
that yield tagKind 1 and tagId "AABBCCDD" are `[len=7, echo, status=0,
AA BB CC DD, type=1]` on Variant A and `[len=6, 0x82, type=1,
AA BB CC DD, checksum]` on Variant B - a length byte of 7 resp. 6, not
the 8 the claim states. -/
theorem C6_tag_record_classification :
    (∀ (s : SL018.State) (r : List Nat),
      (s.cmd = SL018.CMD_SEEK ∨ s.cmd = SL018.CMD_SELECT) →
      0 < SL018.receiveResult r → r.getD 2 0 = 0 → 7 ≤ r.getD 0 0 →
      (SL018.availableStep s r).1.tagLength = r.getD 0 0 - 3 ∧
      (SL018.availableStep s r).1.tagNumber
        = (List.range (r.getD 0 0 - 3)).map (fun i => r.getD (3 + i) 0) ∧
      (SL018.availableStep s r).1.tagString
        = arrayToHex ((List.range (r.getD 0 0 - 3)).map (fun i => r.getD (3 + i) 0)) ∧
      (SL018.availableStep s r).1.tagType = r.getD (r.getD 0 0) 0 ∧
      (SL018.availableStep s r).2.2 = true) ∧
    (∀ (s : SM130.State) (r : List Nat),
      (r.getD 1 0 = SM130.CMD_SEEK_TAG ∨ r.getD 1 0 = SM130.CMD_SELECT_TAG) →
      0 < SM130.receiveResult r → 6 ≤ r.getD 0 0 →
      (SM130.availableStep s false false r).1.tagLength = r.getD 0 0 - 2 ∧
      (SM130.availableStep s false false r).1.tagNumber
        = (List.range (r.getD 0 0 - 2)).map (fun i => r.getD (3 + i) 0) ∧
      (SM130.availableStep s false false r).1.tagString
        = arrayToHex ((List.range (r.getD 0 0 - 2)).map (fun i => r.getD (3 + i) 0)) ∧
      (SM130.availableStep s false false r).1.tagType = r.getD 2 0 ∧
      (SM130.availableStep s false false r).2.2 = true) ∧
    ((SL018.availableStep (SL018.mkState SL018.CMD_SELECT) tagRecord7).1.tagType = 1 ∧
     (SL018.availableStep (SL018.mkState SL018.CMD_SELECT) tagRecord7).1.tagLength = 4 ∧
     (SL018.availableStep (SL018.mkState SL018.CMD_SELECT) tagRecord7).1.tagString
       = asciiCodes "AABBCCDD" ++ [0] ∧
     (SL018.availableStep (SL018.mkState SL018.CMD_SELECT) tagRecord7).2.2 = true) ∧
    ((SL018.availableStep (SL018.mkState SL018.CMD_SEEK) tagRecord10).1.tagLength = 7) ∧
    ((SM130.availableStep (SM130.mkState SM130.CMD_SEEK_TAG) false false tagRecordB).1.tagType
       = 1 ∧
     (SM130.availableStep (SM130.mkState SM130.CMD_SEEK_TAG) false false tagRecordB).1.tagString
       = asciiCodes "AABBCCDD" ++ [0] ∧
     (SM130.availableStep (SM130.mkState SM130.CMD_SEEK_TAG) false false tagRecordB).2.2
       = true) := by
  refine ⟨?_, ?_, by decide, by decide, by decide⟩
  · intro s r hcmd hdata hstatus hL
    rcases hcmd with h | h <;>
      simp_all [SL018.availableStep, SL018.expectedLen, SL018.CMD_SEEK, SL018.CMD_SELECT,
        SL018.CMD_IDLE, SL018.CMD_RESET, SL018.CMD_LOGIN, SL018.CMD_SET_LED, SL018.CMD_SLEEP,
        SL018.CMD_READ4, SL018.CMD_WRITE4, SL018.CMD_READ_VALUE, SL018.CMD_WRITE_VALUE,
        SL018.CMD_DEC_VALUE, SL018.CMD_INC_VALUE, SL018.CMD_COPY_VALUE, SL018.CMD_WRITE_KEY]
  · intro s r hrc hdata hL
    have h3 : ¬ (r.getD 0 0 < 3) := by omega
    rcases hrc with h | h <;>
      simp_all [SM130.availableStep, SM130.CMD_RESET, SM130.CMD_VERSION,
        SM130.CMD_SEEK_TAG, SM130.CMD_SELECT_TAG, SM130.CMD_ANTENNA_POWER, SM130.CMD_SLEEP]

/-- C6 witness: the Variant A clause applied to the concrete 4-byte-id
record. -/
theorem C6_tag_record_classification_witness :
    (SL018.availableStep (SL018.mkState SL018.CMD_SELECT) tagRecord7).1.tagLength = 4 ∧
    (SL018.availableStep (SL018.mkState SL018.CMD_SELECT) tagRecord7).1.tagNumber
      = (List.range 4).map (fun i => tagRecord7.getD (3 + i) 0) ∧
    (SL018.availableStep (SL018.mkState SL018.CMD_SELECT) tagRecord7).1.tagString
      = arrayToHex ((List.range 4).map (fun i => tagRecord7.getD (3 + i) 0)) ∧
    (SL018.availableStep (SL018.mkState SL018.CMD_SELECT) tagRecord7).1.tagType
      = tagRecord7.getD 7 0 ∧
    (SL018.availableStep (SL018.mkState SL018.CMD_SELECT) tagRecord7).2.2 = true :=
  C6_tag_record_classification.1 (SL018.mkState SL018.CMD_SELECT) tagRecord7
    (Or.inr rfl) (by decide) (by decide) (by decide)

/-- C6 counterexample: fed the claim's record with length byte 8 (Variant
B framing, success status, id bytes AA BB CC DD), the classifier derives
a 6-byte id - "AABBCCDD0000" - not the claimed 4-byte id "AABBCCDD". -/
theorem C6_len8_record_mismatch :
    ¬ ((SM130.availableStep (SM130.mkState SM130.CMD_SEEK_TAG) false false
          tagRecordLen8B).1.tagLength = 4 ∧
       (SM130.availableStep (SM130.mkState SM130.CMD_SEEK_TAG) false false
          tagRecordLen8B).1.tagString = asciiCodes "AABBCCDD" ++ [0]) := by
  decide

set_option maxRecDepth 4000 in
/-- C5 helper: flipping bit `k` of a byte adds or subtracts `2 ^ k`. -/
theorem byte_xor_flip : ∀ b < 256, ∀ k < 8,
    b ^^^ 2 ^ k = b + 2 ^ k ∨ b = (b ^^^ 2 ^ k) + 2 ^ k := by
  decide

/-- C5 helper: reading every position of a list back by index is the
identity. -/
theorem range_map_getD (l : List Nat) :
    (List.range l.length).map (fun j => l.getD j 0) = l := by
  apply List.ext_getElem
  · simp
  · intro n h1 h2
    simp only [List.getElem_map, List.getElem_range]
    exact List.getD_eq_getElem l 0 h2

/-- C5 helper: raising one summand of an indexed sum by `c` raises the
sum by `c`. -/
theorem range_sum_update (g : Nat → Nat) (i c : Nat) : ∀ n, i < n →
    ((List.range n).map (fun j => if j = i then g j + c else g j)).sum
      = ((List.range n).map g).sum + c := by
  intro n
  induction n with
  | zero => intro hi; exact absurd hi (Nat.not_lt_zero i)
  | succ n ih =>
    intro hi
    rw [List.range_succ]
    simp only [List.map_append, List.sum_append, List.map_cons, List.map_nil,
      List.sum_cons, List.sum_nil]
    by_cases h : n = i
    · rw [if_pos h]
      have hmc : (List.range n).map (fun j => if j = i then g j + c else g j)
          = (List.range n).map g :=
        List.map_congr_left (fun j hj => by
          rw [if_neg (by have := List.mem_range.mp hj; omega)])
      rw [hmc, h]
      omega
    · rw [if_neg h, ih (by omega)]
      omega

/-- C5: for every encoded Variant B frame (a buffer whose length byte is
one less than its size, between 1 and 18, with byte-valued entries), the
transmitted checksum is the byte sum of the frame; feeding the
transmitted bytes back to the decoder reproduces the frame bytes
byte-identically and passes checksum verification, returning the payload
length; and flipping any single bit of any payload byte (position 1 to
the last payload byte) makes the decoder's verification fail (the
`return -1` path, value 255). -/
theorem C5_checksum_roundtrip (d : List Nat) (i k : Nat)
    (h0 : d.getD 0 0 = d.length - 1) (h2 : 2 ≤ d.length) (h19 : d.length ≤ 19)
    (hi1 : 1 ≤ i) (hiL : i < d.length) (hk : k < 8) (hb : d.getD i 0 < 256) :
    SM130.transmitFrame d = d ++ [d.sum % 256] ∧
    (SM130.transmitFrame d).take d.length = d ∧
    SM130.receiveResult (SM130.transmitFrame d) = d.getD 0 0 ∧
    SM130.receiveResult ((SM130.transmitFrame d).set i (d.getD i 0 ^^^ 2 ^ k)) = 255 := by
  have hL18 : 0 < d.getD 0 0 ∧ d.getD 0 0 ≤ SM130.SIZE_PAYLOAD := by
    simp only [SM130.SIZE_PAYLOAD]
    omega
  have hL1 : d.getD 0 0 + 1 = d.length := by omega
  have hget0 : (d ++ [SM130.checksum d]).getD 0 0 = d.getD 0 0 :=
    List.getD_append _ _ _ _ (by omega)
  have hmap : (List.range (d.getD 0 0 + 1)).map (fun j => (d ++ [SM130.checksum d]).getD j 0)
      = d := by
    rw [hL1]
    have h1 : ∀ j ∈ List.range d.length,
        (d ++ [SM130.checksum d]).getD j 0 = d.getD j 0 := fun j hj =>
      List.getD_append _ _ _ _ (List.mem_range.mp hj)
    rw [List.map_congr_left h1, range_map_getD]
  have hstored : (d ++ [SM130.checksum d]).getD (d.getD 0 0 + 1) 0 = SM130.checksum d := by
    rw [hL1, List.getD_append_right _ _ _ _ (Nat.le_refl _), Nat.sub_self]
    rfl
  refine ⟨rfl, List.take_left d _, ?_, ?_⟩
  · show SM130.receiveResult (d ++ [SM130.checksum d]) = d.getD 0 0
    unfold SM130.receiveResult
    rw [if_neg (by simp : ¬ ((d ++ [SM130.checksum d]).length = 0)), hget0, if_pos hL18,
        hmap, hstored, if_pos rfl]
  · show SM130.receiveResult ((d ++ [SM130.checksum d]).set i (d.getD i 0 ^^^ 2 ^ k)) = 255
    rw [List.set_append_left _ _ hiL]
    have hgetset : ∀ j, (d.set i (d.getD i 0 ^^^ 2 ^ k)).getD j 0
        = if j = i then d.getD i 0 ^^^ 2 ^ k else d.getD j 0 := by
      intro j
      by_cases hj : j = i
      · subst hj
        simp [List.getD, List.getElem?_set_eq_of_lt _ hiL]
      · simp [List.getD, List.getElem?_set_ne (Ne.symm hj), hj]
    have hget0' : (d.set i (d.getD i 0 ^^^ 2 ^ k) ++ [SM130.checksum d]).getD 0 0
        = d.getD 0 0 := by
      rw [List.getD_append _ _ _ _ (by simp; omega), hgetset 0,
          if_neg (by omega : ¬ (0 = i))]
    have hmap' : (List.range (d.getD 0 0 + 1)).map
          (fun j => (d.set i (d.getD i 0 ^^^ 2 ^ k) ++ [SM130.checksum d]).getD j 0)
        = (List.range d.length).map
            (fun j => if j = i then d.getD i 0 ^^^ 2 ^ k else d.getD j 0) := by
      rw [hL1]
      apply List.map_congr_left
      intro j hj
      rw [List.getD_append _ _ _ _ (by simpa using List.mem_range.mp hj), hgetset j]
    have hstored' : (d.set i (d.getD i 0 ^^^ 2 ^ k) ++ [SM130.checksum d]).getD
          (d.getD 0 0 + 1) 0 = SM130.checksum d := by
      rw [hL1, List.getD_append_right _ _ _ _ (by simp)]
      simp
    have hgsum : ((List.range d.length).map (fun j => d.getD j 0)).sum = d.sum := by
      rw [range_map_getD]
    have hS : ((List.range d.length).map
          (fun j => if j = i then d.getD i 0 ^^^ 2 ^ k else d.getD j 0)).sum
          = d.sum + 2 ^ k
        ∨ d.sum = ((List.range d.length).map
            (fun j => if j = i then d.getD i 0 ^^^ 2 ^ k else d.getD j 0)).sum + 2 ^ k := by
      rcases byte_xor_flip (d.getD i 0) hb k hk with hadd | hsub
      · left
        have hfe : (fun j => if j = i then d.getD i 0 ^^^ 2 ^ k else d.getD j 0)
            = (fun j => if j = i then d.getD j 0 + 2 ^ k else d.getD j 0) := by
          funext j
          by_cases hj : j = i
          · subst hj
            simpa using hadd
          · simp [hj]
        rw [hfe, range_sum_update _ i _ d.length hiL, hgsum]
      · right
        have hfe : (fun j => d.getD j 0)
            = (fun j => if j = i
                then (if j = i then d.getD i 0 ^^^ 2 ^ k else d.getD j 0) + 2 ^ k
                else (if j = i then d.getD i 0 ^^^ 2 ^ k else d.getD j 0)) := by
          funext j
          by_cases hj : j = i
          · subst hj
            simpa using hsub
          · simp [hj]
        calc d.sum
            = ((List.range d.length).map (fun j => d.getD j 0)).sum := hgsum.symm
          _ = ((List.range d.length).map (fun j => if j = i
                then (if j = i then d.getD i 0 ^^^ 2 ^ k else d.getD j 0) + 2 ^ k
                else (if j = i then d.getD i 0 ^^^ 2 ^ k else d.getD j 0))).sum := by
              rw [← hfe]
          _ = ((List.range d.length).map
                (fun j => if j = i then d.getD i 0 ^^^ 2 ^ k else d.getD j 0)).sum + 2 ^ k :=
              range_sum_update _ i _ d.length hiL
    have hpk1 : 0 < 2 ^ k := Nat.pow_pos (by omega)
    have hpk2 : 2 ^ k ≤ 128 := by
      calc 2 ^ k ≤ 2 ^ 7 := Nat.pow_le_pow_right (by omega) (by omega)
        _ = 128 := rfl
    have hne : ¬ (SM130.checksum ((List.range d.length).map
          (fun j => if j = i then d.getD i 0 ^^^ 2 ^ k else d.getD j 0)) = SM130.checksum d) := by
      simp only [SM130.checksum]
      rcases hS with h | h <;> omega
    unfold SM130.receiveResult
    rw [if_neg (by simp : ¬ ((d.set i (d.getD i 0 ^^^ 2 ^ k)
          ++ [SM130.checksum d]).length = 0)),
        hget0', if_pos hL18, hmap', hstored', if_neg hne]

/-- C5 witness: the round trip applied to the concrete frame
`[2, 0x82, 'L']`, flipping bit 0 of its last payload byte. -/
theorem C5_checksum_roundtrip_witness :
    SM130.transmitFrame [2, 130, 76] = [2, 130, 76] ++ [208] ∧
    (SM130.transmitFrame [2, 130, 76]).take 3 = [2, 130, 76] ∧
    SM130.receiveResult (SM130.transmitFrame [2, 130, 76]) = 2 ∧
    SM130.receiveResult ((SM130.transmitFrame [2, 130, 76]).set 2 (76 ^^^ 2 ^ 0)) = 255 :=
  C5_checksum_roundtrip [2, 130, 76] 2 0 (by decide) (by decide) (by decide) (by decide)
    (by decide) (by decide) (by decide)

/-- C8 witness: the amended halt theorem applied to the concrete selected
state and a fresh Variant B state. -/
theorem C8_halt_idempotent_idle_witness :
    SL018.haltTag (SL018.haltTag selectedState) = SL018.haltTag selectedState ∧
    (SL018.haltTag selectedState).cmd = SL018.CMD_IDLE ∧
    (∀ r, SL018.availableStep (SL018.haltTag selectedState) r
      = (SL018.haltTag selectedState, [], false)) ∧
    (SL018.haltTag selectedState).tagType = selectedState.tagType ∧
    (SL018.haltTag selectedState).tagLength = selectedState.tagLength ∧
    (SL018.haltTag selectedState).tagString = selectedState.tagString ∧
    (SM130.haltTagStep (SM130.haltTagStep (SM130.mkState SM130.CMD_SEEK_TAG)).1).1
      = (SM130.haltTagStep (SM130.mkState SM130.CMD_SEEK_TAG)).1 ∧
    (SM130.haltTagStep (SM130.mkState SM130.CMD_SEEK_TAG)).1.cmd = SM130.CMD_HALT_TAG ∧
    (SM130.haltTagStep (SM130.mkState SM130.CMD_SEEK_TAG)).1.tagString
      = (SM130.mkState SM130.CMD_SEEK_TAG).tagString :=
  C8_halt_idempotent_idle selectedState (SM130.mkState SM130.CMD_SEEK_TAG)
